import Mathlib

/-!
Verification of the build-pipeline orchestrator (`src/build.py`) and its
collaborators (`src/artifact/tar.py`, `src/fs/ext4.py`, `src/blkdev/raw.py`,
`src/blkdev/utils.py`, `src/utils.py`, `src/schemas.py`).

The Python code is shallowly embedded: every external effect (file-system
queries, subprocess exit codes, tool stdout) is supplied by an explicit
"world" record, external tool invocations are logged as `Tool` events, and
Python exceptions become an explicit `PyErr` error type threaded through
`Except`.  Python `str` is modelled as Lean `String`, Python `int` as `Int`
or `Nat`, and the CPython `float` values arising in `utils.convert_to_bytes`
are modelled exactly as rationals rounded to IEEE-754 binary64
(round-to-nearest, ties-to-even); see `roundDouble` below.
-/

/-- Python exception classes that appear in the sources.  `BuildError` and
`CLIError` are declared in `build.py` as subclasses of `RuntimeError`. -/
inductive PyErr where
  | runtimeError (msg : String)
  | valueError (msg : String)
  | notImplementedError (msg : String)
  | indexError (msg : String)
  | typeError (msg : String)
  | buildError (msg : String)
  | cliError (msg : String)
  | keyError (msg : String)
deriving DecidableEq, Repr

/-- Python `isinstance(e, RuntimeError)`: `BuildError` and `CLIError` extend
`RuntimeError` in `build.py`, so an `except RuntimeError` clause catches all
three. -/
def PyErr.isRuntimeError : PyErr → Bool
  | .runtimeError _ => true
  | .buildError _ => true
  | .cliError _ => true
  | _ => false

/-- External tool invocations (`subprocess.run` calls) recorded as events. -/
inductive Tool where
  | tar (args : List String)
  | hashTool (cmd : String) (path : String)
  | mkfs (args : List String)
  | qemuImgCreate (path : String)
  | losetupAttach (path : String)
  | losetupDetach (path : String)
  | mountCmd (args : List String)
  | umountCmd (path : String)
deriving DecidableEq, Repr

/-- Decidable equality for `Except`, used to evaluate embedded functions at
concrete inputs. -/
instance {ε α : Type} [DecidableEq ε] [DecidableEq α] : DecidableEq (Except ε α) := fun a b =>
  match a, b with
  | .error e, .error f =>
    if h : e = f then .isTrue (by rw [h]) else .isFalse (fun c => h (Except.error.inj c))
  | .ok x, .ok y =>
    if h : x = y then .isTrue (by rw [h]) else .isFalse (fun c => h (Except.ok.inj c))
  | .error _, .ok _ => .isFalse (fun c => Except.noConfusion c)
  | .ok _, .error _ => .isFalse (fun c => Except.noConfusion c)

/-- Python f-string rendering of an `str | None` value (`None` prints as
`"None"`). -/
def pyStrOpt : Option String → String
  | none => "None"
  | some s => s

/-- Splitting a character list at every separator (empty pieces kept),
mirroring `String.split`; implemented structurally so that proofs can
evaluate it. -/
def splitBy (p : Char → Bool) : List Char → List Char → List (List Char)
  | [], acc => [acc.reverse]
  | c :: cs, acc => if p c then acc.reverse :: splitBy p cs [] else splitBy p cs (c :: acc)

/-- Python `s.lower()` (ASCII case folding, evaluable form). -/
def pyLower (s : String) : String :=
  String.mk (s.toList.map Char.toLower)

/-- Python `s.split()` (split on whitespace runs, dropping empty pieces). -/
def pySplitWhite (s : String) : List String :=
  ((splitBy Char.isWhitespace s.toList []).map String.mk).filter (· ≠ "")

/-- Python `s.split(':', 1)` followed by unpacking into exactly two
variables: `none` models the `ValueError` raised when no colon is present. -/
def splitColon1 : List Char → Option (List Char × List Char)
  | [] => none
  | c :: rest =>
    if c = ':' then some ([], rest)
    else (splitColon1 rest).map (fun p => (c :: p.1, p.2))

/-- `splitColon1` lifted to `String`. -/
def splitColon1Str (s : String) : Option (String × String) :=
  (splitColon1 s.toList).map (fun p => (String.mk p.1, String.mk p.2))

/-- POSIX `pathlib.PurePath.name` (simplified: last `/`-separated
component). -/
def pathName (s : String) : String :=
  (((splitBy (· = '/') s.toList []).map String.mk).filter (· ≠ "")).getLastD ""

/-- POSIX `pathlib.PurePath.parent` (simplified: all but the last
component). -/
def pathParent (s : String) : String :=
  match ((splitBy (· = '/') s.toList []).map String.mk).filter (· ≠ "") with
  | [] => "."
  | [_] => "."
  | ps => String.intercalate "/" ps.dropLast

/-- `schemas.ArtifactStatus`. -/
structure ArtifactStatus where
  path : String
  fmt : String
  size_bytes : Int
  hash : String
deriving DecidableEq, Repr

namespace ArtifactTar

/-- The `compress_algo -> tar flag` dispatch shared by `create` and
`extract` in `artifact/tar.py`; `none` (outer) models the
`ValueError("Unsupported Compression Algorithm: ...")` branch, `some none`
the uncompressed case. -/
def tarFlagOfAlgo : Option String → Option (Option String)
  | none => some none
  | some "gz" => some (some "--gzip")
  | some "xz" => some (some "--xz")
  | some "bz2" => some (some "--bzip2")
  | some "lzma" => some (some "--lzma")
  | some "lzip" => some (some "--lzip")
  | some "lzop" => some (some "--lzop")
  | some "zstd" => some (some "--zstd")
  | some _ => none

/-- World of external facts consumed by `ArtifactTar.create`. -/
structure CreateWorld where
  dstExists : Bool
  srcIsDir : Bool
  tarExit : Nat
  md5Exit : Nat
  md5Stdout : String
  dstStatSize : Int
deriving Repr

/-- `artifact/tar.py::create`: returns the external invocations performed
together with the Python result (raised exception or `ArtifactStatus`). -/
def create (src dst : String) (algo : Option String) (w : CreateWorld) :
    List Tool × Except PyErr ArtifactStatus :=
  if w.dstExists then ([], .error (.runtimeError s!"Artifact already exists: {dst}"))
  else
    match tarFlagOfAlgo algo with
    | none => ([], .error (.valueError ("Unsupported Compression Algorithm: " ++ pyStrOpt algo)))
    | some flag =>
      let workdir := if w.srcIsDir then src else pathParent src
      let name := if w.srcIsDir then "./" else pathName src
      let args := ["tar", "-cv"] ++ flag.toList ++ ["-f", dst, "-C", workdir, name]
      let evs := [Tool.tar args]
      if w.tarExit ≠ 0 then (evs, .error (.runtimeError "Failed to create a compressed archive"))
      else
        let evs2 := evs ++ [Tool.hashTool "md5sum" dst]
        if w.md5Exit ≠ 0 then (evs2, .error (.runtimeError "Failed to calculate the hash of the artifact"))
        else
          match (pySplitWhite w.md5Stdout).head? with
          | none => (evs2, .error (.indexError "list index out of range"))
          | some h =>
            (evs2, .ok { path := dst, fmt := "tar." ++ pyStrOpt algo,
                         size_bytes := w.dstStatSize, hash := "md5:" ++ h })

/-- World of external facts consumed by `ArtifactTar.extract`. -/
structure ExtractWorld where
  srcExists : Bool
  dstExists : Bool
  dstIsFile : Bool
  dstIsDir : Bool
  hashExit : Nat
  hashStdout : String
  tarExit : Nat
deriving Repr

/-- `artifact/tar.py::extract`. -/
def extract (src dst hash : String) (algo : Option String) (w : ExtractWorld) :
    List Tool × Except PyErr Unit :=
  if !w.srcExists then ([], .error (.runtimeError s!"Artifact does not exist: {src}"))
  else if w.dstExists && w.dstIsFile then
    ([], .error (.runtimeError "You cannot extract a tar archive into a file!"))
  else if !(w.dstExists && w.dstIsDir) then
    ([], .error (.runtimeError s!"Destination Folder does not exist or is not a directory: {dst}"))
  else
    match splitColon1Str hash with
    | none => ([], .error (.valueError "Invalid Hash Format; expected ALGO:FINGERPRINT"))
    | some (al, expected) =>
      let evs := [Tool.hashTool (pyLower al ++ "sum") src]
      if w.hashExit ≠ 0 then (evs, .error (.runtimeError "Failed to calculate the hash of the artifact"))
      else
        match (pySplitWhite w.hashStdout).head? with
        | none => (evs, .error (.indexError "list index out of range"))
        | some calcd =>
          if calcd ≠ expected then
            (evs, .error (.valueError s!"Hash Mismatch; expected `{expected}`, got `{calcd}`"))
          else
            match tarFlagOfAlgo algo with
            | none => (evs, .error (.valueError ("Unsupported Compression Algorithm: " ++ pyStrOpt algo)))
            | some flag =>
              let args := ["tar", "-xv"] ++ flag.toList ++ ["-f", src, "-C", dst]
              let evs2 := evs ++ [Tool.tar args]
              if w.tarExit ≠ 0 then (evs2, .error (.runtimeError "Failed to extract the compressed archive"))
              else (evs2, .ok ())

end ArtifactTar

/-- C7: if the destination path already exists, `create` fails with the
already-exists error having invoked no external tool at all, so an existing
destination is never overwritten. -/
theorem create_dst_exists_never_overwrites (src dst : String) (algo : Option String)
    (w : ArtifactTar.CreateWorld) (h : w.dstExists = true) :
    ArtifactTar.create src dst algo w
      = ([], .error (.runtimeError s!"Artifact already exists: {dst}")) := by
  unfold ArtifactTar.create
  simp [h]

/-- Witness for C7 at a concrete world whose destination exists. -/
theorem create_dst_exists_never_overwrites_witness :
    ArtifactTar.create "/src" "/out.tar" (some "gz")
        ⟨true, true, 0, 0, "abc /out.tar", 7⟩
      = ([], .error (.runtimeError "Artifact already exists: /out.tar")) :=
  create_dst_exists_never_overwrites "/src" "/out.tar" (some "gz") _ rfl

/-- C5 (amended): on success `create` returns `path = dst`,
`size_bytes = stat size`, a hash of the shape `md5:<digest>` (so the
`algo:hex` separator is always present), and `fmt = "tar.<algo>"` for a
recognized algorithm — but the literal string `"tar.None"`, not bare
`"tar"`, when no compression is requested (Python renders `None` into the
f-string `f"tar.{compress_algo}"`). -/
theorem create_success_status (src dst : String) (algo : Option String)
    (w : ArtifactTar.CreateWorld) (flag : Option String) (dig : String)
    (h1 : w.dstExists = false) (h2 : ArtifactTar.tarFlagOfAlgo algo = some flag)
    (h3 : w.tarExit = 0) (h4 : w.md5Exit = 0)
    (h5 : (pySplitWhite w.md5Stdout).head? = some dig) :
    (ArtifactTar.create src dst algo w).2
        = .ok { path := dst, fmt := "tar." ++ pyStrOpt algo,
                size_bytes := w.dstStatSize, hash := "md5:" ++ dig }
      ∧ ':' ∈ ("md5:" ++ dig).data := by
  constructor
  · unfold ArtifactTar.create
    simp [h1, h2, h3, h4, h5]
  · obtain ⟨l⟩ := dig
    show ':' ∈ "md5:".data ++ l
    simp

/-- Witness for C5's amended theorem at a concrete successful run. -/
theorem create_success_status_witness :
    (ArtifactTar.create "/rootfs" "/out.tar.gz" (some "gz")
        ⟨false, true, 0, 0, "abc123  /out.tar.gz", 42⟩).2
      = .ok { path := "/out.tar.gz", fmt := "tar.gz",
              size_bytes := 42, hash := "md5:abc123" } := by
  have h := create_success_status "/rootfs" "/out.tar.gz" (some "gz")
    ⟨false, true, 0, 0, "abc123  /out.tar.gz", 42⟩ (some "--gzip") "abc123"
    rfl rfl rfl rfl (by rfl)
  exact h.1

/-- C5 counterexample: with no compression requested, a successful `create`
reports format `"tar.None"`, not the bare `"tar"` the claim states. -/
theorem create_fmt_none_counterexample :
    (ArtifactTar.create "/rootfs" "/out.tar" none
          ⟨false, true, 0, 0, "abc123  /out.tar", 7⟩).2
        = .ok { path := "/out.tar", fmt := "tar.None",
                size_bytes := 7, hash := "md5:abc123" }
      ∧ ("tar.None" : String) ≠ "tar" := by
  exact ⟨rfl, by decide⟩

/-- C3: when the recomputed digest differs from the expected digest,
`extract` has invoked exactly the checksum tool named by the hash's
algorithm tag, fails with a hash-mismatch error reporting both values, and
never invokes the extraction tool (no `tar` event), so nothing is written
into the destination directory. -/
theorem extract_hash_mismatch_gate (src dst hash : String) (algo : Option String)
    (w : ArtifactTar.ExtractWorld) (al expected calcd : String)
    (hsrc : w.srcExists = true) (hfile : w.dstIsFile = false)
    (hde : w.dstExists = true) (hdd : w.dstIsDir = true)
    (hsplit : splitColon1Str hash = some (al, expected))
    (hexit : w.hashExit = 0)
    (hcalc : (pySplitWhite w.hashStdout).head? = some calcd)
    (hne : calcd ≠ expected) :
    ArtifactTar.extract src dst hash algo w
      = ([Tool.hashTool (pyLower al ++ "sum") src],
         .error (.valueError s!"Hash Mismatch; expected `{expected}`, got `{calcd}`")) := by
  unfold ArtifactTar.extract
  simp [hsrc, hfile, hde, hdd, hsplit, hexit, hcalc, hne]

/-- Witness for C3 at a concrete corrupted expected hash. -/
theorem extract_hash_mismatch_gate_witness :
    ArtifactTar.extract "/a.tar" "/mnt" "md5:cafe" none
        ⟨true, true, false, true, 0, "deadbeef  /a.tar", 0⟩
      = ([Tool.hashTool "md5sum" "/a.tar"],
         .error (.valueError "Hash Mismatch; expected `cafe`, got `deadbeef`")) := by
  have h := extract_hash_mismatch_gate "/a.tar" "/mnt" "md5:cafe" none
    ⟨true, true, false, true, 0, "deadbeef  /a.tar", 0⟩ "md5" "cafe" "deadbeef"
    rfl rfl rfl rfl (by rfl) rfl (by rfl) (by decide)
  exact h.trans (by decide)

/-! ### SizeParser (`src/utils.py::convert_to_bytes`)

The Python implementation parses the size string with the regex
`^\s*(\d+(?:\.\d+)?)\s*([a-zA-Z]*)\s*$`, converts the numeric group with
`float(...)`, multiplies by the unit's integer multiplier and truncates with
`int(...)`.  CPython `float` is IEEE-754 binary64, so `float(number)` and
the product `number * multiplier` each round to 53 significant bits.  We
model a nonnegative, non-overflowing binary64 value exactly as the rational
it denotes and the two roundings with `roundDouble` (round-to-nearest,
ties-to-even); subnormal underflow and overflow to infinity are outside the
value range exercised here and are not modelled. -/

/-- Round-half-to-even of a rational to an integer. -/
def rhe (x : ℚ) : ℤ :=
  if x - ⌊x⌋ < 1/2 then ⌊x⌋
  else if 1/2 < x - ⌊x⌋ then ⌊x⌋ + 1
  else if ⌊x⌋ % 2 = 0 then ⌊x⌋ else ⌊x⌋ + 1

/-- The binary exponent of a positive rational: the unique `e` with
`2 ^ e ≤ q < 2 ^ (e+1)` (callers establish `0 < q`). -/
def qlog2 (q : ℚ) : ℤ :=
  if 1 ≤ q then (⌊q⌋.toNat.log2 : ℤ)
  else if (2:ℚ) ^ (-(⌊q⁻¹⌋.toNat.log2 : ℤ)) ≤ q then -(⌊q⁻¹⌋.toNat.log2 : ℤ)
  else -(⌊q⁻¹⌋.toNat.log2 : ℤ) - 1

/-- Rounding of a nonnegative rational to IEEE-754 binary64
(round-to-nearest, ties-to-even): the value is scaled so that its
significand occupies 53 bits, rounded half-to-even, and scaled back. -/
def roundDouble (q : ℚ) : ℚ :=
  if q ≤ 0 then 0
  else ((rhe (q * (2:ℚ) ^ (52 - qlog2 q)) : ℤ) : ℚ) * (2:ℚ) ^ (qlog2 q - 52)

/-- Python `int(...)` applied to a float value: truncation toward zero. -/
def pyInt (q : ℚ) : ℤ :=
  if q < 0 then -⌊-q⌋ else ⌊q⌋

/-- CPython `float * int`: the `int` operand is converted to binary64
(`PyLong_AsDouble` rounds to nearest), then the product is rounded once. -/
def pyMulInt (x : ℚ) (m : ℕ) : ℚ :=
  roundDouble (x * roundDouble (m : ℚ))

/-- Value of a digit string (group `\d+`). -/
def digitsToNat (l : List Char) : ℕ :=
  l.foldl (fun n c => 10 * n + (c.toNat - 48)) 0

/-- The regex match `^\s*(\d+(?:\.\d+)?)\s*([a-zA-Z]*)\s*$` of
`utils.HUMAN_BYTESIZE_RE`: returns the integer digits, the fractional
digits (empty when the optional `(?:\.\d+)` group is absent) and the unit
group, or `none` when the string does not match. -/
def parseSizeMatch (l : List Char) : Option (List Char × List Char × String) :=
  let l1 := l.dropWhile Char.isWhitespace
  let ds := l1.takeWhile Char.isDigit
  if ds.isEmpty then none
  else
    let l2 := l1.drop ds.length
    let fp : List Char × List Char :=
      match l2 with
      | '.' :: rest =>
        if (rest.takeWhile Char.isDigit).isEmpty then ([], l2)
        else (rest.takeWhile Char.isDigit, rest.drop (rest.takeWhile Char.isDigit).length)
      | _ => ([], l2)
    let l4 := fp.2.dropWhile Char.isWhitespace
    let us := l4.takeWhile Char.isAlpha
    if ((l4.drop us.length).dropWhile Char.isWhitespace).isEmpty then
      some (ds, fp.1, String.mk us)
    else none

/-- Python `float(<matched number>)`: the decimal value, correctly rounded
to binary64. -/
def pyFloatOfDecimal (ds fs : List Char) : ℚ :=
  roundDouble ((digitsToNat ds : ℚ) + (digitsToNat fs : ℚ) / (10:ℚ) ^ fs.length)

/-- `utils.IE_MULTIPLIERS` (binary units, powers of 1024). -/
def IE_MULTIPLIERS : List (String × ℕ) :=
  [("KiB", 1024), ("MiB", 1048576), ("GiB", 1073741824), ("TiB", 1099511627776),
   ("PiB", 1125899906842624), ("EiB", 1152921504606846976),
   ("ZiB", 1180591620717411303424), ("YiB", 1208925819614629174706176)]

/-- `utils.SI_MULTIPLIERS` (decimal units, powers of 1000). -/
def SI_MULTIPLIERS : List (String × ℕ) :=
  [("KB", 1000), ("MB", 1000000), ("GB", 1000000000), ("TB", 1000000000000),
   ("PB", 1000000000000000), ("EB", 1000000000000000000),
   ("ZB", 1000000000000000000000), ("YB", 1000000000000000000000000)]

/-- The `unit in IE_MULTIPLIERS` / `elif unit in SI_MULTIPLIERS` lookup of
`utils.py::convert_to_bytes`, in source order. -/
def multOf (unit : String) : Option ℕ :=
  match IE_MULTIPLIERS.find? (fun p => p.1 = unit) with
  | some p => some p.2
  | none =>
    match SI_MULTIPLIERS.find? (fun p => p.1 = unit) with
    | some p => some p.2
    | none => none

/-- `utils.py::convert_to_bytes`. -/
def convert_to_bytes (s : String) : Except PyErr Int :=
  match parseSizeMatch s.toList with
  | none => .error (.valueError "Invalid size format")
  | some (ds, fs, unit) =>
    match multOf unit with
    | some m => .ok (pyInt (pyMulInt (pyFloatOfDecimal ds fs) m))
    | none =>
      if unit = "B" ∨ unit = "" then .ok (pyInt (pyMulInt (pyFloatOfDecimal ds fs) 1))
      else .error (.valueError ("Unknown unit: " ++ unit))

/-- `rhe` is the identity on integers. -/
theorem rhe_intCast (n : ℤ) : rhe (n : ℚ) = n := by
  unfold rhe
  norm_num

/-- A nonnegative value whose significand fits in 53 bits is reproduced
exactly by binary64 rounding. -/
theorem roundDouble_mul_pow (a e : ℕ) (ha : a < 2 ^ 53) :
    roundDouble ((a : ℚ) * 2 ^ e) = (a : ℚ) * 2 ^ e := by
  rcases Nat.eq_zero_or_pos a with rfl | hpos
  · simp [roundDouble]
  · have hq : ((a : ℚ) * 2 ^ e) = ((a * 2 ^ e : ℕ) : ℚ) := by push_cast; ring
    have hN1 : 1 ≤ a * 2 ^ e := Nat.one_le_iff_ne_zero.mpr (by positivity)
    have hq1 : (1 : ℚ) ≤ (a : ℚ) * 2 ^ e := by
      rw [hq]; exact_mod_cast hN1
    have hq0 : ¬ ((a : ℚ) * 2 ^ e ≤ 0) := by linarith
    have hfloor : ⌊(a : ℚ) * 2 ^ e⌋ = (a * 2 ^ e : ℕ) := by
      rw [hq, Int.floor_natCast]
    have hlog : qlog2 ((a : ℚ) * 2 ^ e) = ((a * 2 ^ e).log2 : ℤ) := by
      unfold qlog2
      rw [if_pos hq1, hfloor, Int.toNat_natCast]
    have hLlt : (a * 2 ^ e).log2 < 53 + e := by
      rw [Nat.log2_lt (by omega)]
      calc a * 2 ^ e < 2 ^ 53 * 2 ^ e := by
            exact mul_lt_mul_of_pos_right ha (by positivity)
        _ = 2 ^ (53 + e) := by rw [← pow_add]
    have hLle : (a * 2 ^ e).log2 ≤ 52 + e := by omega
    set L := (a * 2 ^ e).log2 with hL
    have hk : ((e + 52 - L : ℕ) : ℤ) = (e : ℤ) + 52 - L := by omega
    have hx : (a : ℚ) * 2 ^ e * (2:ℚ) ^ ((52:ℤ) - L)
        = ((a * 2 ^ (e + 52 - L) : ℕ) : ℚ) := by
      push_cast
      rw [mul_assoc, ← zpow_natCast (2:ℚ) e, ← zpow_natCast (2:ℚ) (e + 52 - L),
        ← zpow_add₀ (by norm_num : (2:ℚ) ≠ 0), hk]
      ring_nf
    unfold roundDouble
    rw [if_neg hq0, hlog, hx]
    have : rhe ((a * 2 ^ (e + 52 - L) : ℕ) : ℚ) = ((a * 2 ^ (e + 52 - L) : ℕ) : ℤ) := by
      exact_mod_cast rhe_intCast ((a * 2 ^ (e + 52 - L) : ℕ) : ℤ)
    have hexp : ((e + 52 - L : ℕ) : ℤ) + ((L : ℤ) - 52) = (e : ℤ) := by omega
    rw [this]
    push_cast
    rw [mul_assoc, ← zpow_natCast (2:ℚ) (e + 52 - L),
      ← zpow_add₀ (by norm_num : (2:ℚ) ≠ 0), hexp, zpow_natCast]

/-- Rounding to binary64 is exact on naturals below `2 ^ 53`. -/
theorem roundDouble_natCast (k : ℕ) (hk : k < 2 ^ 53) : roundDouble (k : ℚ) = k := by
  have h := roundDouble_mul_pow k 0 hk
  rw [pow_zero, mul_one] at h
  exact h

/-- Every multiplier in the unit tables is positive. -/
theorem multOf_pos (u : String) (m : ℕ) (h : multOf u = some m) : 1 ≤ m := by
  have hie : ∀ q ∈ IE_MULTIPLIERS, 1 ≤ q.2 := by decide
  have hsi : ∀ q ∈ SI_MULTIPLIERS, 1 ≤ q.2 := by decide
  unfold multOf at h
  cases hf : IE_MULTIPLIERS.find? (fun p => p.1 = u) with
  | some p =>
    rw [hf] at h
    simp only [Option.some.injEq] at h
    subst h
    exact hie p (List.mem_of_find?_eq_some hf)
  | none =>
    rw [hf] at h
    cases hs : SI_MULTIPLIERS.find? (fun p => p.1 = u) with
    | some p =>
      rw [hs] at h
      simp only [Option.some.injEq] at h
      subst h
      exact hsi p (List.mem_of_find?_eq_some hs)
    | none =>
      rw [hs] at h
      exact Option.noConfusion h

/-- `int()` of a nonnegative integral float is that integer. -/
theorem pyInt_natCast (k : ℕ) : pyInt (k : ℚ) = k := by
  unfold pyInt
  rw [if_neg (not_lt.mpr (by positivity))]
  exact_mod_cast Int.floor_natCast k

/-- The numeric pipeline of `convert_to_bytes` is exact when the parsed
number is an integer and the mathematical product fits in 53 bits. -/
theorem pyInt_pyMulInt_exact (n m : ℕ) (hm1 : 1 ≤ m) (hb : n * m < 2 ^ 53) :
    pyInt (pyMulInt (roundDouble (n : ℚ)) m) = ((n * m : ℕ) : ℤ) := by
  rcases Nat.eq_zero_or_pos n with rfl | hn
  · have h0 : roundDouble ((0 : ℕ) : ℚ) = 0 := by simp [roundDouble]
    rw [h0]
    unfold pyMulInt
    rw [zero_mul]
    have h1 : roundDouble 0 = 0 := by simp [roundDouble]
    rw [h1]
    simp [pyInt]
  · have hn53 : n < 2 ^ 53 := by
      calc n = n * 1 := (Nat.mul_one n).symm
        _ ≤ n * m := Nat.mul_le_mul_left n hm1
        _ < 2 ^ 53 := hb
    have hm53 : m < 2 ^ 53 := by
      calc m = 1 * m := (Nat.one_mul m).symm
        _ ≤ n * m := Nat.mul_le_mul_right m hn
        _ < 2 ^ 53 := hb
    rw [roundDouble_natCast n hn53]
    unfold pyMulInt
    rw [roundDouble_natCast m hm53]
    have hprod : (n : ℚ) * (m : ℚ) = ((n * m : ℕ) : ℚ) := by push_cast; ring
    rw [hprod, roundDouble_natCast (n * m) hb, pyInt_natCast]

/-- Exactness of the `convert_to_bytes` pipeline for integral numbers with
products below `2 ^ 53` (shared helper). -/
theorem convert_to_bytes_exact_aux (s : String) (ds : List Char) (u : String) (m : ℕ)
    (hp : parseSizeMatch s.toList = some (ds, [], u))
    (hm : multOf u = some m ∨ ((u = "B" ∨ u = "") ∧ m = 1))
    (hb : digitsToNat ds * m < 2 ^ 53) :
    convert_to_bytes s = .ok ((digitsToNat ds * m : ℕ) : ℤ) := by
  have hds : pyFloatOfDecimal ds [] = roundDouble (digitsToNat ds : ℚ) := by
    unfold pyFloatOfDecimal
    norm_num [show digitsToNat [] = 0 from rfl]
  have hm1 : 1 ≤ m := by
    rcases hm with hm | ⟨_, rfl⟩
    · exact multOf_pos u m hm
    · exact le_refl 1
  have key : pyInt (pyMulInt (pyFloatOfDecimal ds []) m) = ((digitsToNat ds * m : ℕ) : ℤ) := by
    rw [hds]
    exact pyInt_pyMulInt_exact (digitsToNat ds) m hm1 hb
  unfold convert_to_bytes
  rw [hp]
  rcases hm with hmm | ⟨hu, rfl⟩
  · show (match multOf u with
      | some m => Except.ok (pyInt (pyMulInt (pyFloatOfDecimal ds []) m))
      | none =>
        if u = "B" ∨ u = "" then Except.ok (pyInt (pyMulInt (pyFloatOfDecimal ds []) 1))
        else Except.error (PyErr.valueError ("Unknown unit: " ++ u))) = _
    rw [hmm]
    exact congrArg Except.ok key
  · have hnone : multOf u = none := by rcases hu with rfl | rfl <;> rfl
    show (match multOf u with
      | some m => Except.ok (pyInt (pyMulInt (pyFloatOfDecimal ds []) m))
      | none =>
        if u = "B" ∨ u = "" then Except.ok (pyInt (pyMulInt (pyFloatOfDecimal ds []) 1))
        else Except.error (PyErr.valueError ("Unknown unit: " ++ u))) = _
    rw [hnone]
    show (if u = "B" ∨ u = "" then Except.ok (pyInt (pyMulInt (pyFloatOfDecimal ds []) 1))
        else Except.error (PyErr.valueError ("Unknown unit: " ++ u))) = _
    rw [if_pos hu]
    exact congrArg Except.ok (key.trans (by rw [Nat.mul_one]))

/-- C6 (amended): for every valid size string whose numeric group has no
fractional part and whose exact product `n * multiplier` is below `2 ^ 53`,
`convert_to_bytes` returns exactly `n * multiplier` (the binary64
intermediate values are exact there); this covers `"4GiB" → 4294967296`,
`"1KB" → 1000` and `"10" → 10`.  Outside that range the binary64 rounding
shows through (see the `"1YB"` counterexample). -/
theorem convert_to_bytes_exact (s : String) (ds : List Char) (u : String) (m : ℕ)
    (hp : parseSizeMatch s.toList = some (ds, [], u))
    (hm : multOf u = some m ∨ ((u = "B" ∨ u = "") ∧ m = 1))
    (hb : digitsToNat ds * m < 2 ^ 53) :
    convert_to_bytes s = .ok ((digitsToNat ds * m : ℕ) : ℤ) :=
  convert_to_bytes_exact_aux s ds u m hp hm hb

/-- Witness for C6's amended theorem: `"4GiB"` evaluates to `4294967296`. -/
theorem convert_to_bytes_exact_witness :
    convert_to_bytes "4GiB" = .ok 4294967296 := by
  have h := convert_to_bytes_exact "4GiB" ['4'] "GiB" 1073741824
    (by decide) (Or.inl (by decide)) (by decide)
  exact h.trans (by decide)

/-- `Nat.log2` of `10 ^ 24` (used to locate its binary64 exponent). -/
theorem log2_ten_pow_24 : Nat.log2 (10 ^ 24) = 79 := by
  have h1 : (79 : ℕ) ≤ Nat.log2 (10 ^ 24) := (Nat.le_log2 (by norm_num)).mpr (by norm_num)
  have h2 : Nat.log2 (10 ^ 24) < 80 := (Nat.log2_lt (by norm_num)).mpr (by norm_num)
  omega

/-- `10 ^ 24` is not representable in binary64: rounding it (as CPython's
`PyLong_AsDouble` does) yields `999999999999999983222784`. -/
theorem roundDouble_ten_pow_24 :
    roundDouble ((10 : ℚ) ^ 24) = 999999999999999983222784 := by
  have h0 : ¬ ((10 : ℚ) ^ 24 ≤ 0) := by norm_num
  have hcast : ((10 : ℚ) ^ 24) = ((10 ^ 24 : ℕ) : ℚ) := by push_cast; ring
  have hfl : ⌊(10 : ℚ) ^ 24⌋ = ((10 ^ 24 : ℕ) : ℤ) := by
    rw [hcast, Int.floor_natCast]
  have hlog : qlog2 ((10 : ℚ) ^ 24) = 79 := by
    unfold qlog2
    rw [if_pos (by norm_num : (1:ℚ) ≤ (10:ℚ) ^ 24), hfl, Int.toNat_natCast,
      log2_ten_pow_24]
    norm_num
  have hx : (10 : ℚ) ^ 24 * (2 : ℚ) ^ ((52 : ℤ) - 79) = 59604644775390625 / 8 := by
    rw [show ((52 : ℤ) - 79) = -(27 : ℤ) from by norm_num, zpow_neg,
      show ((27 : ℤ)) = ((27 : ℕ) : ℤ) from rfl, zpow_natCast]
    norm_num
  have hfl2 : ⌊(59604644775390625 : ℚ) / 8⌋ = 7450580596923828 := by
    rw [Int.floor_eq_iff]
    constructor <;> norm_num
  have hrhe : rhe ((59604644775390625 : ℚ) / 8) = 7450580596923828 := by
    unfold rhe
    rw [hfl2, if_pos (by norm_num)]
  unfold roundDouble
  rw [if_neg h0, hlog, hx, hrhe]
  rw [show ((79 : ℤ) - 52) = ((27 : ℕ) : ℤ) from rfl, zpow_natCast]
  norm_num

/-- C6 counterexample: `convert_to_bytes "1YB"` returns
`999999999999999983222784`, not `1 * 10 ^ 24` — the multiplier `1000 ** 8`
is first converted to binary64 by CPython's float-int multiplication, and
`10 ^ 24` needs 56 significant bits. -/
theorem convert_to_bytes_1YB_counterexample :
    convert_to_bytes "1YB" = .ok 999999999999999983222784
      ∧ (999999999999999983222784 : ℤ) ≠ 10 ^ 24 := by
  constructor
  · have hp : parseSizeMatch "1YB".toList = some (['1'], [], "YB") := by decide
    have hmult : multOf "YB" = some 1000000000000000000000000 := by decide
    have h1 : pyFloatOfDecimal ['1'] [] = 1 := by
      unfold pyFloatOfDecimal
      have harg : ((digitsToNat ['1'] : ℚ) + (digitsToNat ([] : List Char) : ℚ)
          / (10:ℚ) ^ (List.length ([] : List Char))) = ((1 : ℕ) : ℚ) := by
        norm_num [show digitsToNat ['1'] = 1 from rfl, show digitsToNat [] = 0 from rfl]
      rw [harg, roundDouble_natCast 1 (by norm_num)]
      exact Nat.cast_one
    have h2 : ((1000000000000000000000000 : ℕ) : ℚ) = (10 : ℚ) ^ 24 := by
      push_cast
      norm_num
    have h3 : pyMulInt 1 1000000000000000000000000 = 999999999999999983222784 := by
      unfold pyMulInt
      rw [h2, roundDouble_ten_pow_24, one_mul]
      rw [show (999999999999999983222784 : ℚ) = ((7450580596923828 : ℕ) : ℚ) * 2 ^ (27 : ℕ)
          from by push_cast; norm_num]
      rw [roundDouble_mul_pow 7450580596923828 27 (by norm_num)]
    have h4 : pyInt (999999999999999983222784 : ℚ) = 999999999999999983222784 := by
      unfold pyInt
      rw [if_neg (by norm_num)]
      rw [show (999999999999999983222784 : ℚ) = ((999999999999999983222784 : ℤ) : ℚ)
          from by norm_cast]
      rw [Int.floor_intCast]
    unfold convert_to_bytes
    rw [hp]
    show (match multOf "YB" with
      | some m => Except.ok (pyInt (pyMulInt (pyFloatOfDecimal ['1'] []) m))
      | none =>
        if ("YB" : String) = "B" ∨ ("YB" : String) = "" then
          Except.ok (pyInt (pyMulInt (pyFloatOfDecimal ['1'] []) 1))
        else Except.error (PyErr.valueError ("Unknown unit: " ++ "YB"))) = _
    rw [hmult]
    show Except.ok (pyInt (pyMulInt (pyFloatOfDecimal ['1'] []) 1000000000000000000000000)) = _
    rw [h1, h3, h4]
  · decide

/-! ### Filesystem formatter (`src/fs/ext4.py`) -/

/-- Values appearing in the `dict[str, ...]` info maps of the sources
(string values, lists of option strings, integers). -/
inductive PyVal where
  | str (s : String)
  | list (xs : List String)
  | int (n : Int)
deriving DecidableEq, Repr

namespace Ext4

/-- Result dictionary of `fs/ext4.py::format`. -/
structure FormatResult where
  fs_label : String
  fs_uuid : String
  fs_info : List (String × PyVal)
deriving DecidableEq, Repr

/-- World of external facts consumed by `Ext4.format`: whether the device
path exists and is a block special file, the `uuid.uuid4()` draw, and the
`mkfs.ext4` exit code. -/
structure FormatWorld where
  devIsBlock : Bool
  genUuid : String
  mkfsExit : Nat
deriving Repr

/-- `fs/ext4.py::format` (the `str(fs_uuid)` normalisation of a parsed UUID
object is modelled as the identity on its string form). -/
def format (device_path volume_label : String) (fs_uuid : Option String)
    (mke2fs_opts : List String) (blocks_count : Option Int) (w : FormatWorld) :
    List Tool × Except PyErr FormatResult :=
  if !w.devIsBlock then
    ([], .error (.runtimeError ("Device Path does not exist or is not a block device: " ++ device_path)))
  else if 16 < volume_label.utf8ByteSize then
    ([], .error (.valueError ("Volume Label must be 16 bytes or less: " ++ toString volume_label.utf8ByteSize)))
  else if mke2fs_opts.contains "-L" then
    ([], .error (.valueError "Don't set the Volume Label in the mke2fs options; use the `volume_label` parameter instead"))
  else if mke2fs_opts.contains "-U" then
    ([], .error (.valueError "Don't set the UUID in mke2fs options; use the `fs_uuid` parameter instead"))
  else
    let uuid := fs_uuid.getD w.genUuid
    let args := ["mkfs.ext4", "-v", "-L", volume_label, "-U", uuid] ++ mke2fs_opts
      ++ [device_path] ++ (blocks_count.map toString).toList
    let evs := [Tool.mkfs args]
    if w.mkfsExit ≠ 0 then
      (evs, .error (.runtimeError ("Failed to format block device: " ++ device_path)))
    else
      (evs, .ok { fs_label := volume_label, fs_uuid := uuid,
                  fs_info := [("fs_type", PyVal.str "ext4"), ("fs_opts", PyVal.list mke2fs_opts)] })

end Ext4

/-- C8: with a valid device path, a label whose UTF-8 encoding exceeds 16
bytes makes `format` fail with the label-too-long `ValueError` before any
external formatting tool is invoked (empty event list); and for labels of
at most 16 encoded bytes the length check never fails: no `ValueError` at
all is possible (given the option guards the orchestrator always
satisfies). -/
theorem format_label_too_long_gate (dp lbl : String) (fsu : Option String)
    (opts : List String) (bc : Option Int) (w : Ext4.FormatWorld)
    (hdev : w.devIsBlock = true) :
    (16 < lbl.utf8ByteSize →
      Ext4.format dp lbl fsu opts bc w
        = ([], .error (.valueError ("Volume Label must be 16 bytes or less: "
            ++ toString lbl.utf8ByteSize))))
    ∧ (lbl.utf8ByteSize ≤ 16 → opts.contains "-L" = false → opts.contains "-U" = false →
        ∀ m, (Ext4.format dp lbl fsu opts bc w).2 ≠ .error (.valueError m)) := by
  constructor
  · intro hlen
    unfold Ext4.format
    rw [hdev]
    simp [hlen]
  · intro hlen hL hU m
    unfold Ext4.format
    rw [hdev]
    simp only [Bool.not_true, Bool.false_eq_true, if_false, hL, hU]
    rw [if_neg (by omega)]
    split
    · intro hcon
      exact PyErr.noConfusion (Except.error.inj hcon)
    · intro hcon
      exact Except.noConfusion hcon

/-- Witness for C8 at a 17-byte label on a valid device. -/
theorem format_label_too_long_gate_witness :
    Ext4.format "/dev/loop0" "aaaaaaaaaaaaaaaaa" none [] none ⟨true, "u1", 0⟩
      = ([], .error (.valueError "Volume Label must be 16 bytes or less: 17")) := by
  have h := (format_label_too_long_gate "/dev/loop0" "aaaaaaaaaaaaaaaaa" none [] none
    ⟨true, "u1", 0⟩ rfl).1 (by decide)
  exact h.trans (by decide)

/-! ### Result reporter output loop (`src/build.py::main`, lines 296-299) -/

/-- The success-channel output loop of `main`:
`while buf_offset < buf_len: buf_offset += sys.stdout.buffer.write(buf[0:])`.
`rets` lists the byte counts accepted by the successive (possibly partial)
writes; each write is passed `buf[0:]` — the whole buffer — so it emits the
first `r` bytes of `buf` and the loop adds `r` to the offset. -/
def main_output_loop (buf : List Nat) : Nat → List Nat → List Nat
  | _, [] => []
  | offset, r :: rs =>
    if offset < buf.length then buf.take r ++ main_output_loop buf (offset + r) rs
    else []

/-- The `write_to_stdout` helper of `build.py` (lines 324-327), which
correctly resumes from `data[bytes_written:]` after a partial write. -/
def write_to_stdout (data : List Nat) : Nat → List Nat → List Nat
  | _, [] => []
  | written, r :: rs =>
    if written < data.length then
      (data.drop written).take r ++ write_to_stdout data (written + r) rs
    else []

/-- C9 is false of the code: after a partial write `main`'s loop re-sends
from offset 0 (`buf[0:]` instead of `buf[buf_offset:]`), duplicating bytes.
For the 2-byte buffer `[7, 8]` and accepted-write counts `[1, 2]` the loop
emits `[7, 7, 8]`; the adjacent `write_to_stdout` helper in the same file
emits exactly `[7, 8]` on the same schedule, and the loop is only correct
when the first write accepts everything. -/
theorem main_output_loop_duplicates_on_partial_write :
    main_output_loop [7, 8] 0 [1, 2] = [7, 7, 8]
      ∧ main_output_loop [7, 8] 0 [1, 2] ≠ [7, 8]
      ∧ write_to_stdout [7, 8] 0 [1, 2] = [7, 8]
      ∧ main_output_loop [7, 8] 0 [2] = [7, 8] := by
  decide

/-! ### `build.py::load_from_env` -/

/-- `build.py::load_from_env`: the environment is a partial map from
variable names to values; an empty value is converted to `KeyError` and
both absence and emptiness surface as the same `CLIError`. -/
def load_from_env (env : String → Option String) (name : String) : Except PyErr String :=
  match env name with
  | none => .error (.cliError ("Missing or Empty Environment Variable: " ++ name))
  | some v =>
    if v = "" then .error (.cliError ("Missing or Empty Environment Variable: " ++ name))
    else .ok v

/-- C10: `load_from_env` returns the value exactly when the variable is set
to a non-empty string; when the variable is absent or set to the empty
string it raises the usage-class `CLIError` whose message names the
variable (the name is a suffix of the message). -/
theorem load_from_env_spec (env : String → Option String) (name : String) :
    (∀ v, env name = some v → v ≠ "" → load_from_env env name = .ok v)
    ∧ (env name = none ∨ env name = some "" →
        load_from_env env name
          = .error (.cliError ("Missing or Empty Environment Variable: " ++ name))
        ∧ name.data <:+ ("Missing or Empty Environment Variable: " ++ name).data) := by
  constructor
  · intro v hv hne
    unfold load_from_env
    rw [hv]
    simp [hne]
  · intro h
    constructor
    · unfold load_from_env
      rcases h with h | h <;> simp [load_from_env, h]
    · obtain ⟨l⟩ := name
      show l <:+ "Missing or Empty Environment Variable: ".data ++ l
      exact List.suffix_append _ l

/-- Witness for C10: an absent variable raises the `CLIError` naming it. -/
theorem load_from_env_spec_witness :
    load_from_env (fun _ => none) "TARGET_ARCH"
      = .error (.cliError "Missing or Empty Environment Variable: TARGET_ARCH") := by
  have h := (load_from_env_spec (fun _ => none) "TARGET_ARCH").2 (Or.inl rfl)
  exact h.1.trans (by decide)

/-! ### Block-device teardown (`src/build.py::safe_cleanup_blkdev`,
`cleanup_blkdevs`)

`schemas.BlkDevStatus` declares `kind : Literal['raw']` and all of its keys
required; the typing hypotheses of C2's theorem are exactly that.  The
`unmount` and `cleanup` (detach) calls sit inside bare `except:` clauses
that catch every exception alike, so their failures are collapsed to a
success bit.  The `is_mounted` (build.py line 28) and
`blkdev.raw.is_attached` (build.py line 41) state queries, however, are
called *outside* those `try` blocks and can themselves raise — `raw.py`
line 11 raises `RuntimeError` when `losetup --json` exits non-zero, and the
JSON decode of its stdout can fail too — so the queries are modelled as
fallible and their exceptions propagate. -/

/-- `schemas.BlkDevStatus`.  `device_path`, and the extra `file`/`size`
keys merged in by `blkdev.raw.create`, are `Option`s because the
orchestrator's freshly initialised status dictionary does not contain
them until the corresponding stage's result is merged. -/
structure BlkDevStatus where
  size_bytes : Int
  kind : String
  img_path : String
  device_path : Option String
  device_info : List (String × String)
  fs_label : String
  fs_uuid : Option String
  fs_info : List (String × PyVal)
  mount_point : String
  mount_info : List (String × PyVal)
  file : Option String := none
  size : Option Int := none
deriving DecidableEq, Repr

/-- Teardown steps taken by `safe_cleanup_blkdev`, as observable events. -/
inductive CleanupEvent where
  | unmounted (mp : String)
  | unmountFailedWarning (mp : String)
  | detached (dev : String)
  | detachFailedWarning (dev : String)
  | cleanedUp (img : String)
deriving DecidableEq, Repr

/-- World of external facts consumed by teardown.  The `is_mounted` and
`is_attached` queries re-read live OS state and can raise (they run outside
the bare `except:` blocks); the unmount/detach outcomes are plain bits
because their exceptions are all swallowed. -/
structure CleanupWorld where
  is_mounted : String → Except PyErr Bool
  unmountOk : String → Bool
  is_attached : String → Except PyErr String
  detachOk : String → Bool

/-- The unmount attempt of `safe_cleanup_blkdev` (lines 29-32), reached when
the mount table query reported the point mounted; a failure is caught and
logged as a warning. -/
def unmountEvents (mp : String) (mounted : Bool) (w : CleanupWorld) : List CleanupEvent :=
  if mounted then
    if w.unmountOk mp then [CleanupEvent.unmounted mp]
    else [CleanupEvent.unmountFailedWarning mp]
  else []

/-- The detach attempt for a raw device (lines 42-45), reached when the
live loop-device table still showed the image attached (`att` is the
queried device name, empty meaning detached); a failure is caught and
logged as a warning. -/
def detachEvents (dp img att : String) (w : CleanupWorld) : List CleanupEvent :=
  if att ≠ "" then
    if w.detachOk img then [CleanupEvent.detached dp]
    else [CleanupEvent.detachFailedWarning dp]
  else []

/-- The mount phase of `safe_cleanup_blkdev` (lines 24-33): skipped for an
empty (falsy) mount point; otherwise the `is_mounted` query runs outside
the `try`, so its exception propagates. -/
def mountPhase (dev : BlkDevStatus) (w : CleanupWorld) : Except PyErr (List CleanupEvent) :=
  if dev.mount_point ≠ "" then
    match w.is_mounted dev.mount_point with
    | .error e => .error e
    | .ok mounted => .ok (unmountEvents dev.mount_point mounted w)
  else .ok []

/-- `build.py::safe_cleanup_blkdev`.  Line 22 subscripts
`dev['device_path']` (a `KeyError` on a status missing that key); an
unknown `kind` raises `BuildError` (line 46); the `is_attached` query at
line 41 runs outside the `try`, so its exception propagates. -/
def safe_cleanup_blkdev (dev : BlkDevStatus) (w : CleanupWorld) :
    Except PyErr (List CleanupEvent) :=
  match dev.device_path with
  | none => .error (.keyError "device_path")
  | some dp =>
    match mountPhase dev w with
    | .error e => .error e
    | .ok evs1 =>
      if dp ≠ "" then
        if dev.kind = "raw" then
          match w.is_attached dev.img_path with
          | .error e => .error e
          | .ok att =>
            .ok (evs1 ++ detachEvents dp dev.img_path att w
              ++ [CleanupEvent.cleanedUp dev.img_path])
        else .error (.buildError ("Unknown Block Device Kind: " ++ dev.kind))
      else .ok (evs1 ++ [CleanupEvent.cleanedUp dev.img_path])

/-- `build.py::cleanup_blkdevs`: sequential teardown over
`build_result['block_devices']`; an exception escaping
`safe_cleanup_blkdev` aborts the loop. -/
def cleanup_blkdevs : List BlkDevStatus → CleanupWorld → Except PyErr (List CleanupEvent)
  | [], _ => .ok []
  | d :: ds, w =>
    match safe_cleanup_blkdev d w with
    | .error e => .error e
    | .ok evs =>
      match cleanup_blkdevs ds w with
      | .error e => .error e
      | .ok rest => .ok (evs ++ rest)

/-- Projection selecting the completion marker of each device's teardown. -/
def cleanedUpOf : CleanupEvent → Option String
  | .cleanedUp i => some i
  | _ => none

/-- The unmount attempt never emits a completion marker. -/
theorem filterMap_unmountEvents (mp : String) (mounted : Bool) (w : CleanupWorld) :
    (unmountEvents mp mounted w).filterMap cleanedUpOf = [] := by
  unfold unmountEvents
  split_ifs <;> rfl

/-- The detach attempt never emits a completion marker. -/
theorem filterMap_detachEvents (dp img att : String) (w : CleanupWorld) :
    (detachEvents dp img att w).filterMap cleanedUpOf = [] := by
  unfold detachEvents
  split_ifs <;> rfl

/-- When the mount-table query answers (does not raise), the mount phase
returns its warning/success events. -/
theorem mountPhase_ok (dev : BlkDevStatus) (w : CleanupWorld) (b : Bool)
    (hQm : w.is_mounted dev.mount_point = .ok b) :
    mountPhase dev w
      = .ok (if dev.mount_point ≠ "" then unmountEvents dev.mount_point b w else []) := by
  unfold mountPhase
  by_cases hmp : dev.mount_point = ""
  · simp only [if_neg (not_not_intro hmp)]
  · simp only [if_pos hmp]
    rw [hQm]

/-- The mount phase's events never include a completion marker. -/
theorem filterMap_mountPhase_events (c : Prop) [Decidable c] (mp : String) (b : Bool)
    (w : CleanupWorld) :
    ((if c then unmountEvents mp b w else []).filterMap cleanedUpOf) = [] := by
  split_ifs
  · exact filterMap_unmountEvents mp b w
  · rfl

/-- When both state queries answer, `safe_cleanup_blkdev` on a schema-typed
status never raises and marks exactly its device as cleaned up. -/
theorem safe_cleanup_blkdev_ok (d : BlkDevStatus) (w : CleanupWorld) (dp : String)
    (b : Bool) (s : String)
    (hkind : d.kind = "raw") (hdp : d.device_path = some dp)
    (hQm : w.is_mounted d.mount_point = .ok b)
    (hQa : w.is_attached d.img_path = .ok s) :
    ∃ evs, safe_cleanup_blkdev d w = .ok evs
      ∧ evs.filterMap cleanedUpOf = [d.img_path] := by
  unfold safe_cleanup_blkdev
  split
  · next heq =>
    rw [hdp] at heq
    exact absurd heq (by simp)
  · next dp2 heq =>
    rw [hdp] at heq
    obtain rfl : dp2 = dp := by
      injection heq with h
      exact h.symm
    split
    · next e heq2 =>
      rw [mountPhase_ok d w b hQm] at heq2
      exact Except.noConfusion heq2
    · next evs1 heq2 =>
      rw [mountPhase_ok d w b hQm] at heq2
      obtain rfl : evs1 = (if d.mount_point ≠ "" then unmountEvents d.mount_point b w else []) :=
        (Except.ok.inj heq2).symm
      by_cases h1 : dp2 = ""
      · rw [if_neg (not_not_intro h1)]
        refine ⟨_, rfl, ?_⟩
        rw [List.filterMap_append, filterMap_mountPhase_events]
        rfl
      · rw [if_pos h1, hkind, if_pos rfl, hQa]
        refine ⟨_, rfl, ?_⟩
        rw [List.filterMap_append, List.filterMap_append, filterMap_mountPhase_events,
          filterMap_detachEvents]
        rfl

/-- When the loop-device query raises, the exception escapes
`safe_cleanup_blkdev` (the bare `except:` does not cover it). -/
theorem safe_cleanup_blkdev_attach_error (d : BlkDevStatus) (w : CleanupWorld) (dp : String)
    (b : Bool) (e : PyErr)
    (hkind : d.kind = "raw") (hdp : d.device_path = some dp) (hne : dp ≠ "")
    (hQm : w.is_mounted d.mount_point = .ok b)
    (hQa : w.is_attached d.img_path = .error e) :
    safe_cleanup_blkdev d w = .error e := by
  unfold safe_cleanup_blkdev
  split
  · next heq =>
    rw [hdp] at heq
    exact absurd heq (by simp)
  · next dp2 heq =>
    rw [hdp] at heq
    obtain rfl : dp2 = dp := by
      injection heq with h
      exact h.symm
    split
    · next e2 heq2 =>
      rw [mountPhase_ok d w b hQm] at heq2
      exact Except.noConfusion heq2
    · next evs1 heq2 =>
      rw [if_pos hne, hkind, if_pos rfl, hQa]

/-- C2 (amended): errors raised by the unmount and detach calls themselves
are caught, logged as warnings and never propagated — over any schema-typed
list of `BlkDevStatus` entries and any combination of unmount/detach
outcomes, *provided the `is_mounted`/`is_attached` state queries return
without raising*, teardown returns normally and visits every device in
order, and within one device a failed unmount still lets the detach step
run.  But the state queries run outside the `try` blocks: if
`blkdev.raw.is_attached` raises during one device's teardown, that
exception escapes `safe_cleanup_blkdev` and aborts teardown of the
remaining devices. -/
theorem cleanup_blkdevs_total (devs : List BlkDevStatus) (w : CleanupWorld)
    (hT : ∀ d ∈ devs, d.kind = "raw" ∧ d.device_path.isSome)
    (hQ : ∀ d ∈ devs, (∃ b, w.is_mounted d.mount_point = .ok b)
        ∧ (∃ s, w.is_attached d.img_path = .ok s)) :
    (∃ evs, cleanup_blkdevs devs w = .ok evs
      ∧ evs.filterMap cleanedUpOf = devs.map BlkDevStatus.img_path)
    ∧ (∀ d ∈ devs, ∀ dp, d.device_path = some dp → dp ≠ "" → d.mount_point ≠ "" →
        w.is_mounted d.mount_point = .ok true → w.unmountOk d.mount_point = false →
        ∀ s, w.is_attached d.img_path = .ok s → s ≠ "" → w.detachOk d.img_path = true →
        safe_cleanup_blkdev d w
          = .ok [CleanupEvent.unmountFailedWarning d.mount_point,
                 CleanupEvent.detached dp,
                 CleanupEvent.cleanedUp d.img_path])
    ∧ (∀ (d : BlkDevStatus) (rest : List BlkDevStatus) (dp : String) (b : Bool) (e : PyErr),
        d.kind = "raw" → d.device_path = some dp → dp ≠ "" →
        w.is_mounted d.mount_point = .ok b → w.is_attached d.img_path = .error e →
        cleanup_blkdevs (d :: rest) w = .error e) := by
  refine ⟨?_, ?_, ?_⟩
  · induction devs with
    | nil => exact ⟨[], rfl, rfl⟩
    | cons d ds ih =>
      obtain ⟨hk, hdpS⟩ := hT d (List.mem_cons_self d ds)
      obtain ⟨dp, hdp⟩ := Option.isSome_iff_exists.mp hdpS
      obtain ⟨⟨b, hb⟩, ⟨s, hs⟩⟩ := hQ d (List.mem_cons_self d ds)
      obtain ⟨evs, hevs, hclean⟩ := safe_cleanup_blkdev_ok d w dp b s hk hdp hb hs
      obtain ⟨rest, hrest, hcleanR⟩ :=
        ih (fun x hx => hT x (List.mem_cons_of_mem d hx))
          (fun x hx => hQ x (List.mem_cons_of_mem d hx))
      refine ⟨evs ++ rest, ?_, ?_⟩
      · unfold cleanup_blkdevs
        rw [hevs, hrest]
      · rw [List.filterMap_append, hclean, hcleanR, List.map_cons]
        rfl
  · intro d hd dp hdp hne hmp hmnt hUm s hAtt hsne hDet
    obtain ⟨hk, _⟩ := hT d hd
    unfold safe_cleanup_blkdev
    split
    · next heq =>
      rw [hdp] at heq
      exact absurd heq (by simp)
    · next dp2 heq =>
      rw [hdp] at heq
      obtain rfl : dp2 = dp := by
        injection heq with h
        exact h.symm
      split
      · next e heq2 =>
        rw [mountPhase_ok d w true hmnt] at heq2
        exact Except.noConfusion heq2
      · next evs1 heq2 =>
        rw [mountPhase_ok d w true hmnt] at heq2
        obtain rfl : evs1 = (if d.mount_point ≠ "" then unmountEvents d.mount_point true w else []) :=
          (Except.ok.inj heq2).symm
        rw [if_pos hne, hk, if_pos rfl]
        split
        · next e heqA =>
          exact absurd (hAtt.symm.trans heqA) (by simp)
        · next att heqA =>
          obtain rfl : att = s := by
            injection hAtt.symm.trans heqA with h
            exact h.symm
          unfold unmountEvents detachEvents
          rw [if_pos hmp, if_pos rfl, if_neg (by simp [hUm]), if_pos hsne, if_pos hDet]
          rfl
  · intro d rest dp b e hk hdp hne hb he
    unfold cleanup_blkdevs
    rw [safe_cleanup_blkdev_attach_error d w dp b e hk hdp hne hb he]

/-- Witness for C2's amended theorem: two raw devices, the first with a
failing unmount and a failing detach, the second fully clean — with both
state queries answering, both devices are visited. -/
theorem cleanup_blkdevs_total_witness :
    (∃ evs,
        cleanup_blkdevs
          [{ size_bytes := 1, kind := "raw", img_path := "/a.img",
             device_path := some "/dev/loop0", device_info := [],
             fs_label := "A", fs_uuid := none, fs_info := [],
             mount_point := "/mnt/a", mount_info := [] },
           { size_bytes := 1, kind := "raw", img_path := "/b.img",
             device_path := some "/dev/loop1", device_info := [],
             fs_label := "B", fs_uuid := none, fs_info := [],
             mount_point := "/mnt/b", mount_info := [] }]
          ⟨fun _ => .ok true, fun mp => mp ≠ "/mnt/a", fun img => .ok img,
           fun img => img ≠ "/a.img"⟩
          = .ok evs
      ∧ evs.filterMap cleanedUpOf = ["/a.img", "/b.img"]) :=
  (cleanup_blkdevs_total
    [{ size_bytes := 1, kind := "raw", img_path := "/a.img",
       device_path := some "/dev/loop0", device_info := [],
       fs_label := "A", fs_uuid := none, fs_info := [],
       mount_point := "/mnt/a", mount_info := [] },
     { size_bytes := 1, kind := "raw", img_path := "/b.img",
       device_path := some "/dev/loop1", device_info := [],
       fs_label := "B", fs_uuid := none, fs_info := [],
       mount_point := "/mnt/b", mount_info := [] }]
    ⟨fun _ => .ok true, fun mp => mp ≠ "/mnt/a", fun img => .ok img,
     fun img => img ≠ "/a.img"⟩
    (by decide)
    (fun d _ => ⟨⟨true, rfl⟩, ⟨d.img_path, rfl⟩⟩)).1

/-- C2 counterexample: when `losetup --json` fails while the first device
is being torn down (`blkdev.raw.is_attached` raises
`RuntimeError("Failed to list loop devices")`, called outside the bare
`except:`), the exception propagates out of `cleanup_blkdevs` and the
second device — which on its own would be torn down fine, as the second
conjunct shows — is never visited. -/
theorem cleanup_blkdevs_query_failure_counterexample :
    cleanup_blkdevs
        [{ size_bytes := 1, kind := "raw", img_path := "/a.img",
           device_path := some "/dev/loop0", device_info := [],
           fs_label := "A", fs_uuid := none, fs_info := [],
           mount_point := "", mount_info := [] },
         { size_bytes := 1, kind := "raw", img_path := "/b.img",
           device_path := some "/dev/loop1", device_info := [],
           fs_label := "B", fs_uuid := none, fs_info := [],
           mount_point := "/mnt/b", mount_info := [] }]
        ⟨fun _ => .ok false, fun _ => true,
         fun img => if img = "/a.img" then .error (.runtimeError "Failed to list loop devices")
                    else .ok img,
         fun _ => true⟩
      = .error (.runtimeError "Failed to list loop devices")
    ∧ cleanup_blkdevs
        [{ size_bytes := 1, kind := "raw", img_path := "/b.img",
           device_path := some "/dev/loop1", device_info := [],
           fs_label := "B", fs_uuid := none, fs_info := [],
           mount_point := "/mnt/b", mount_info := [] }]
        ⟨fun _ => .ok false, fun _ => true,
         fun img => if img = "/a.img" then .error (.runtimeError "Failed to list loop devices")
                    else .ok img,
         fun _ => true⟩
      = .ok [CleanupEvent.detached "/dev/loop1", CleanupEvent.cleanedUp "/b.img"] := by
  constructor
  · decide
  · decide

/-! ### Deploy stage (`src/build.py::deploy_rootfs`) -/

/-- `schemas.BlkDevCfg`.  The `kind`/`fs_type` fields are plain strings
because the JSON configuration is loaded without validation and `build.py`
itself guards every use with an explicit unknown-kind branch. -/
structure BlkDevCfg where
  kind : String
  path : String
  size : String
  fs_type : String
  volume_label : String
  fs_uuid : Option String
  mount_point : String
deriving DecidableEq, Repr

/-- Python `s.split(sep, 1)` returning both halves, `none` when the
separator is absent. -/
def splitOnce (sep : Char) : List Char → Option (List Char × List Char)
  | [] => none
  | c :: rest =>
    if c = sep then some ([], rest)
    else (splitOnce sep rest).map (fun p => (c :: p.1, p.2))

/-- `fmt.split('.', maxsplit=1)[1]`: the part after the first dot.  Callers
only reach this behind a `fmt.startswith('tar.')` guard, so the separator
is always present; the `none` fallback stands for the otherwise-raised
`IndexError`. -/
def splitDot1Snd (s : String) : String :=
  match splitOnce '.' s.toList with
  | some p => String.mk p.2
  | none => ""

/-- `fmt.startswith('tar.')`. -/
def pyStartsWithTarDot (s : String) : Bool :=
  match s.toList with
  | 't' :: 'a' :: 'r' :: '.' :: _ => true
  | _ => false

/-- World of external facts consumed by `deploy_rootfs` beyond those of
`ArtifactTar.extract`. -/
structure DeployWorld where
  artifactExists : Bool
  mpExists : Bool
  mpIsDir : Bool
  extractW : ArtifactTar.ExtractWorld
deriving Repr

/-- `build.py::deploy_rootfs` (lines 161-182).  Note the gate: only
`len(cfg['block_devices']) > 1` raises `NotImplementedError`; with an empty
list the subsequent `cfg['block_devices'][0]` raises `IndexError`. -/
def deploy_rootfs (block_devices : List BlkDevCfg) (rootfs_fmt : String)
    (art : ArtifactStatus) (w : DeployWorld) : List Tool × Except PyErr Unit :=
  if 1 < block_devices.length then
    ([], .error (.notImplementedError "Only a single block device is supported for deployment"))
  else
    match block_devices.head? with
    | none => ([], .error (.indexError "list index out of range"))
    | some dev0 =>
      if !w.artifactExists then
        ([], .error (.buildError ("RootFS Artifact does not exist: " ++ art.path)))
      else if !(w.mpExists && w.mpIsDir) then
        ([], .error (.buildError ("Bloc Device Mount Point does not exist or is not a directory: "
          ++ dev0.mount_point)))
      else if pyStartsWithTarDot rootfs_fmt then
        ArtifactTar.extract art.path dev0.mount_point art.hash (some (splitDot1Snd rootfs_fmt)) w.extractW
      else if rootfs_fmt = "tar" then
        ArtifactTar.extract art.path dev0.mount_point art.hash none w.extractW
      else ([], .error (.buildError ("Unsupported RootFS Artifact Format: " ++ rootfs_fmt)))

/-- C4 (amended): the deploy stage raises `NotImplementedError` (before any
other work; no tool events) whenever more than one block device is
configured — extra devices are never silently ignored — but with zero
configured devices it fails with an `IndexError` from `block_devices[0]`,
not with the `NotImplemented` class the claim states for every non-one
count. -/
theorem deploy_rootfs_device_count_gate (bds : List BlkDevCfg) (fmt : String)
    (art : ArtifactStatus) (w : DeployWorld) :
    (1 < bds.length →
      deploy_rootfs bds fmt art w
        = ([], .error (.notImplementedError "Only a single block device is supported for deployment")))
    ∧ (bds.length = 0 →
      deploy_rootfs bds fmt art w
        = ([], .error (.indexError "list index out of range"))) := by
  constructor
  · intro h
    unfold deploy_rootfs
    rw [if_pos h]
  · intro h
    obtain rfl : bds = [] := List.length_eq_zero.mp h
    rfl

/-- Witness for C4's amended theorem: two devices trigger the
`NotImplementedError`, zero devices the `IndexError`. -/
theorem deploy_rootfs_device_count_gate_witness :
    deploy_rootfs
        [{ kind := "raw", path := "/a.img", size := "1GiB", fs_type := "ext4",
           volume_label := "A", fs_uuid := none, mount_point := "/mnt/a" },
         { kind := "raw", path := "/b.img", size := "1GiB", fs_type := "ext4",
           volume_label := "B", fs_uuid := none, mount_point := "/mnt/b" }]
        "tar" ⟨"/a.tar", "tar", 1, "md5:x"⟩
        ⟨true, true, true, ⟨true, true, false, true, 0, "", 0⟩⟩
      = ([], .error (.notImplementedError "Only a single block device is supported for deployment")) :=
  (deploy_rootfs_device_count_gate _ "tar" ⟨"/a.tar", "tar", 1, "md5:x"⟩
    ⟨true, true, true, ⟨true, true, false, true, 0, "", 0⟩⟩).1 (by decide)

/-- C4 counterexample: with zero configured block devices the deploy stage
fails with `IndexError`, which is not a `NotImplemented`-class error. -/
theorem deploy_rootfs_zero_devices_counterexample :
    deploy_rootfs [] "tar" ⟨"/a.tar", "tar", 1, "md5:x"⟩
        ⟨true, true, true, ⟨true, true, false, true, 0, "", 0⟩⟩
      = ([], .error (.indexError "list index out of range"))
    ∧ PyErr.indexError "list index out of range"
        ≠ PyErr.notImplementedError "Only a single block device is supported for deployment" :=
  ⟨rfl, fun h => PyErr.noConfusion h⟩

/-! ### Block-device provisioning (`src/blkdev/raw.py`, `src/blkdev/utils.py`,
`src/build.py::build_blkdevs`) -/

/-- Python `s.strip()`. -/
def pyStrip (s : String) : String :=
  String.mk (((s.toList.dropWhile Char.isWhitespace).reverse.dropWhile Char.isWhitespace).reverse)

namespace BlkRaw

/-- Result dictionary of `blkdev/raw.py::create` (note the extra
`file`/`size` keys, absent from `schemas.BlkDevStatus`). -/
structure RawCreateResult where
  file : String
  size : Int
  kind : String
deriving DecidableEq, Repr

/-- World of external facts consumed by `BlkRaw.create`. -/
structure CreateWorld where
  parentExists : Bool
  imgExists : Bool
  exit : Nat
deriving DecidableEq, Repr

/-- `blkdev/raw.py::create`. -/
def create (img_file : String) (size_bytes : Int) (w : CreateWorld) :
    Except PyErr RawCreateResult :=
  if !w.parentExists then
    .error (.runtimeError ("Block Device parent directory does not exist: " ++ pathParent img_file))
  else if w.imgExists then
    .error (.runtimeError ("Block Device already exists: " ++ img_file))
  else if w.exit ≠ 0 then
    .error (.runtimeError ("Failed to create raw block device: " ++ img_file))
  else .ok { file := img_file, size := size_bytes, kind := "raw" }

/-- Result dictionary of `blkdev/raw.py::attach`. -/
structure AttachResult where
  device_path : String
  device_info : List (String × String)
deriving DecidableEq, Repr

/-- World of external facts consumed by `BlkRaw.attach`: the `losetup -f
--show` exit code and stdout, and whether the printed device node exists. -/
structure AttachWorld where
  imgExists : Bool
  exit : Nat
  stdout : String
  loopExists : Bool
deriving DecidableEq, Repr

/-- `blkdev/raw.py::attach`. -/
def attach (image_file : String) (w : AttachWorld) : Except PyErr AttachResult :=
  if !w.imgExists then
    .error (.runtimeError ("Image File does not exist: " ++ image_file))
  else if w.exit ≠ 0 then
    .error (.runtimeError ("Failed to setup loop device: " ++ image_file))
  else if !w.loopExists then
    .error (.runtimeError ("Loop Device does not exist: " ++ pyStrip w.stdout))
  else .ok { device_path := pyStrip w.stdout,
             device_info := [("loop_dev", pyStrip w.stdout)] }

end BlkRaw

namespace BlkUtils

/-- Result dictionary of `blkdev/utils.py::mount`. -/
structure MountResult where
  mount_point : String
  mount_info : List (String × PyVal)
deriving DecidableEq, Repr

/-- World of external facts consumed by `BlkUtils.mount`. -/
structure MountWorld where
  devIsBlock : Bool
  parentExists : Bool
  mpIsDir : Bool
  exit : Nat
deriving DecidableEq, Repr

/-- `blkdev/utils.py::mount`. -/
def mount (device_path mount_point fs_type : String) (mount_opts : List String)
    (volume_label fs_uuid : Option String) (w : MountWorld) : Except PyErr MountResult :=
  if !w.devIsBlock then
    .error (.runtimeError ("Device Path does not exist or is not a block device: " ++ device_path))
  else if !w.parentExists then
    .error (.runtimeError ("Mount Point parent directory does not exist: " ++ pathParent mount_point))
  else if !w.mpIsDir then
    .error (.runtimeError ("Mount Point does not exist or is not a directory: " ++ mount_point))
  else if volume_label.isSome && fs_uuid.isSome then
    .error (.valueError "Volume Label and UUID are mutually exclusive")
  else if w.exit ≠ 0 then
    .error (.runtimeError ("Failed to mount loop device `" ++ device_path ++ "` to `"
      ++ mount_point ++ "`"))
  else
    .ok { mount_point := mount_point,
          mount_info := [("fs_type", PyVal.str fs_type), ("mount_opts", PyVal.list mount_opts)]
            ++ (match volume_label with | some l => [("volume_label", PyVal.str l)] | none => [])
            ++ (match fs_uuid with | some u => [("fs_uuid", PyVal.str u)] | none => []) }

end BlkUtils

/-- The `except RuntimeError as e: raise BuildError(f"<stage>: {e}")`
pattern of `build_blkdevs`: `BuildError` and `CLIError` are `RuntimeError`
subclasses and are wrapped too; everything else propagates unchanged. -/
def wrapStage (stageMsg : String) : PyErr → PyErr
  | .runtimeError m => .buildError (stageMsg ++ m)
  | .buildError m => .buildError (stageMsg ++ m)
  | .cliError m => .buildError (stageMsg ++ m)
  | e => e

/-- Per-device-index worlds for the four provisioning stages, plus the
`uuid.UUID(...)` parse oracle. -/
structure ProvWorld where
  createW : Nat → BlkRaw.CreateWorld
  attachW : Nat → BlkRaw.AttachWorld
  formatW : Nat → Ext4.FormatWorld
  mountW : Nat → BlkUtils.MountWorld
  uuidOk : String → Bool

/-- The per-device loop body of `build.py::build_blkdevs` (lines 56-104):
the status dictionary is pre-filled from the configuration, each stage's
result dictionary is merged in with `|=` when the stage succeeds, a stage
failure raises (wrapped as `BuildError` for `RuntimeError`s), and the
status is appended to the accumulator only after the mount stage. -/
def build_blkdevs_go (w : ProvWorld) :
    List BlkDevCfg → Nat → List BlkDevStatus → Except PyErr (List BlkDevStatus)
  | [], _, devs => .ok devs
  | dev :: rest, i, devs =>
    match convert_to_bytes dev.size with
    | .error e => .error e
    | .ok dev_size =>
      match (match dev.fs_uuid with
             | some u =>
               if w.uuidOk u then Except.ok (some u)
               else Except.error (PyErr.valueError "badly formed hexadecimal UUID string")
             | none => Except.ok none) with
      | .error e => .error e
      | .ok fs_uuid_parsed =>
        let st0 : BlkDevStatus :=
          { size_bytes := dev_size, kind := dev.kind, img_path := dev.path,
            device_path := none, device_info := [], fs_label := dev.volume_label,
            fs_uuid := dev.fs_uuid, fs_info := [], mount_point := dev.mount_point,
            mount_info := [] }
        match (if dev.kind = "raw" then BlkRaw.create dev.path dev_size (w.createW i)
               else .error (.buildError ("Unknown Block Device Kind: " ++ dev.kind))) with
        | .error e => .error (wrapStage "Failed to create block device: " e)
        | .ok rc =>
          let st1 := { st0 with file := some rc.file, size := some rc.size, kind := rc.kind }
          match (if dev.kind = "raw" then BlkRaw.attach dev.path (w.attachW i)
                 else .error (.buildError ("Unknown Block Device Kind: " ++ dev.kind))) with
          | .error e => .error (wrapStage "Failed to attach block device: " e)
          | .ok ra =>
            let st2 := { st1 with device_path := some ra.device_path,
                                  device_info := ra.device_info }
            match (if dev.fs_type = "ext4" then
                     (Ext4.format ra.device_path dev.volume_label fs_uuid_parsed [] none
                       (w.formatW i)).2
                   else .error (.buildError ("Unknown Filesystem Type: " ++ dev.fs_type))) with
            | .error e => .error (wrapStage "Failed to format block device: " e)
            | .ok rf =>
              let st3 := { st2 with fs_label := rf.fs_label, fs_uuid := some rf.fs_uuid,
                                    fs_info := rf.fs_info }
              match (if dev.kind = "raw" then
                       BlkUtils.mount ra.device_path dev.mount_point dev.fs_type [] none none
                         (w.mountW i)
                     else .error (.buildError ("Unknown Block Device Kind: " ++ dev.kind))) with
              | .error e => .error (wrapStage "Failed to mount block device: " e)
              | .ok rm =>
                let st4 := { st3 with mount_point := rm.mount_point,
                                      mount_info := rm.mount_info }
                build_blkdevs_go w rest (i + 1) (devs ++ [st4])

/-- `build.py::build_blkdevs`. -/
def build_blkdevs (cfg : List BlkDevCfg) (w : ProvWorld) : Except PyErr (List BlkDevStatus) :=
  build_blkdevs_go w cfg 0 []

/-- The `block_devices` entries that reach `build_result`: `main` extends
`build_result['block_devices']` only from a *returned* result, so when
`build_blkdevs` raises, no entry is recorded at all. -/
def resultDevices : Except PyErr (List BlkDevStatus) → List BlkDevStatus
  | .ok devs => devs
  | .error _ => []

/-- A successful `Ext4.format` always returns a populated `fs_info`. -/
theorem format_ok_fs_info (dp lbl : String) (fsu : Option String) (opts : List String)
    (bc : Option Int) (w : Ext4.FormatWorld) (rf : Ext4.FormatResult)
    (h : (Ext4.format dp lbl fsu opts bc w).2 = .ok rf) : rf.fs_info ≠ [] := by
  unfold Ext4.format at h
  split_ifs at h
  simp_all
  rw [← h]
  simp

/-- A successful `BlkUtils.mount` always returns a populated `mount_info`. -/
theorem mount_ok_mount_info (dp mp ft : String) (opts : List String)
    (vl fsu : Option String) (w : BlkUtils.MountWorld) (rm : BlkUtils.MountResult)
    (h : BlkUtils.mount dp mp ft opts vl fsu w = .ok rm) : rm.mount_info ≠ [] := by
  unfold BlkUtils.mount at h
  split_ifs at h
  simp_all
  rw [← h]
  simp

/-- Invariant of the provisioning loop: every status it appends carries the
fields of all four stages. -/
theorem build_blkdevs_go_spec (w : ProvWorld) :
    ∀ (cfgs : List BlkDevCfg) (i : Nat) (acc devs : List BlkDevStatus),
      build_blkdevs_go w cfgs i acc = .ok devs →
      devs.length = acc.length + cfgs.length
      ∧ ∀ st ∈ devs, st ∈ acc ∨
          (st.file.isSome = true ∧ st.device_path.isSome = true
            ∧ st.fs_info ≠ [] ∧ st.mount_info ≠ []) := by
  intro cfgs
  induction cfgs with
  | nil =>
    intro i acc devs h
    unfold build_blkdevs_go at h
    obtain rfl : acc = devs := Except.ok.inj h
    exact ⟨rfl, fun st hst => Or.inl hst⟩
  | cons dev rest ih =>
    intro i acc devs h
    unfold build_blkdevs_go at h
    split at h
    · exact Except.noConfusion h
    · next dev_size _ =>
      split at h
      · exact Except.noConfusion h
      · next fs_uuid_parsed _ =>
        split at h
        · exact Except.noConfusion h
        · next rc hrc =>
          split at h
          · exact Except.noConfusion h
          · next ra hra =>
            split at h
            · exact Except.noConfusion h
            · next rf hrf =>
              split at h
              · exact Except.noConfusion h
              · next rm hrm =>
                obtain ⟨hlen, hmem⟩ := ih (i + 1) _ devs h
                constructor
                · rw [hlen, List.length_append]
                  simp [Nat.add_assoc, Nat.add_comm 1 rest.length]
                · intro st hst
                  rcases hmem st hst with hin | hfull
                  · rcases List.mem_append.mp hin with hin | hin
                    · exact Or.inl hin
                    · right
                      obtain rfl : st = _ := List.mem_singleton.mp hin
                      refine ⟨rfl, rfl, ?_, ?_⟩
                      · show rf.fs_info ≠ []
                        by_cases hft : dev.fs_type = "ext4"
                        · rw [if_pos hft] at hrf
                          exact format_ok_fs_info _ _ _ _ _ _ _ hrf
                        · rw [if_neg hft] at hrf
                          exact Except.noConfusion hrf
                      · show rm.mount_info ≠ []
                        by_cases hk : dev.kind = "raw"
                        · rw [if_pos hk] at hrm
                          exact mount_ok_mount_info _ _ _ _ _ _ _ _ hrm
                        · rw [if_neg hk] at hrm
                          exact Except.noConfusion hrm
                  · exact Or.inr hfull

/-- C1 (amended): `build_blkdevs` appends a device's status to the result
only after all four stages (create, attach, format, mount) have succeeded:
a returned result has exactly one entry per configured device and every
entry carries the fields of all four stages.  A mid-device stage failure
raises instead, and because the caller extends
`build_result['block_devices']` only from a returned value, neither the
failing device nor the devices already fully provisioned in the same call
contribute any entry (no partial-prefix entry exists, contrary to the
claim). -/
theorem build_blkdevs_append_only_after_all_stages (cfg : List BlkDevCfg) (w : ProvWorld)
    (devs : List BlkDevStatus) (h : build_blkdevs cfg w = .ok devs) :
    devs.length = cfg.length
    ∧ ∀ st ∈ devs, st.file.isSome = true ∧ st.device_path.isSome = true
        ∧ st.fs_info ≠ [] ∧ st.mount_info ≠ [] := by
  obtain ⟨hlen, hmem⟩ := build_blkdevs_go_spec w cfg 0 [] devs h
  refine ⟨by simpa using hlen, fun st hst => ?_⟩
  rcases hmem st hst with hin | hfull
  · cases hin
  · exact hfull

/-- `convert_to_bytes "10" = 10` (shared by the C1 concrete runs). -/
theorem convert_to_bytes_ten : convert_to_bytes "10" = .ok 10 := by
  have h := convert_to_bytes_exact_aux "10" ['1', '0'] "" 1
    (by decide) (Or.inr ⟨Or.inr rfl, rfl⟩) (by decide)
  exact h.trans (by decide)

/-- C1 counterexample: one raw device whose create and attach stages
succeed and whose format stage fails (`mkfs.ext4` exits 1).  The claim
predicts a result entry carrying exactly the create/attach fields; in fact
`build_blkdevs` raises and the recorded `block_devices` list is empty. -/
theorem build_blkdevs_mid_device_failure_counterexample :
    build_blkdevs
        [{ kind := "raw", path := "/img.raw", size := "10", fs_type := "ext4",
           volume_label := "ROOT", fs_uuid := none, mount_point := "/mnt/root" }]
        ⟨fun _ => ⟨true, false, 0⟩, fun _ => ⟨true, 0, "/dev/loop0\n", true⟩,
         fun _ => ⟨true, "gen-uuid", 1⟩, fun _ => ⟨true, true, true, 0⟩, fun _ => true⟩
      = .error (.buildError
          "Failed to format block device: Failed to format block device: /dev/loop0")
    ∧ resultDevices (build_blkdevs
        [{ kind := "raw", path := "/img.raw", size := "10", fs_type := "ext4",
           volume_label := "ROOT", fs_uuid := none, mount_point := "/mnt/root" }]
        ⟨fun _ => ⟨true, false, 0⟩, fun _ => ⟨true, 0, "/dev/loop0\n", true⟩,
         fun _ => ⟨true, "gen-uuid", 1⟩, fun _ => ⟨true, true, true, 0⟩, fun _ => true⟩) = []
    ∧ BlkRaw.create "/img.raw" 10 ⟨true, false, 0⟩
        = .ok { file := "/img.raw", size := 10, kind := "raw" }
    ∧ BlkRaw.attach "/img.raw" ⟨true, 0, "/dev/loop0\n", true⟩
        = .ok { device_path := "/dev/loop0", device_info := [("loop_dev", "/dev/loop0")] } := by
  have hrun : build_blkdevs
      [{ kind := "raw", path := "/img.raw", size := "10", fs_type := "ext4",
         volume_label := "ROOT", fs_uuid := none, mount_point := "/mnt/root" }]
      ⟨fun _ => ⟨true, false, 0⟩, fun _ => ⟨true, 0, "/dev/loop0\n", true⟩,
       fun _ => ⟨true, "gen-uuid", 1⟩, fun _ => ⟨true, true, true, 0⟩, fun _ => true⟩
      = .error (.buildError
          "Failed to format block device: Failed to format block device: /dev/loop0") := by
    unfold build_blkdevs build_blkdevs_go
    dsimp only
    rw [convert_to_bytes_ten]
    decide
  refine ⟨hrun, ?_, by decide, by decide⟩
  rw [hrun]
  rfl

/-- Witness for C1's amended theorem at a fully successful single-device
run. -/
theorem build_blkdevs_append_only_after_all_stages_witness :
    ∃ devs,
      build_blkdevs
          [{ kind := "raw", path := "/img.raw", size := "10", fs_type := "ext4",
             volume_label := "ROOT", fs_uuid := none, mount_point := "/mnt/root" }]
          ⟨fun _ => ⟨true, false, 0⟩, fun _ => ⟨true, 0, "/dev/loop0\n", true⟩,
           fun _ => ⟨true, "gen-uuid", 0⟩, fun _ => ⟨true, true, true, 0⟩, fun _ => true⟩
        = .ok devs
      ∧ devs.length = 1
      ∧ ∀ st ∈ devs, st.file.isSome = true ∧ st.device_path.isSome = true
          ∧ st.fs_info ≠ [] ∧ st.mount_info ≠ [] := by
  have hrun : build_blkdevs
      [{ kind := "raw", path := "/img.raw", size := "10", fs_type := "ext4",
         volume_label := "ROOT", fs_uuid := none, mount_point := "/mnt/root" }]
      ⟨fun _ => ⟨true, false, 0⟩, fun _ => ⟨true, 0, "/dev/loop0\n", true⟩,
       fun _ => ⟨true, "gen-uuid", 0⟩, fun _ => ⟨true, true, true, 0⟩, fun _ => true⟩
      = .ok [{ size_bytes := 10, kind := "raw", img_path := "/img.raw",
               device_path := some "/dev/loop0",
               device_info := [("loop_dev", "/dev/loop0")],
               fs_label := "ROOT", fs_uuid := some "gen-uuid",
               fs_info := [("fs_type", PyVal.str "ext4"), ("fs_opts", PyVal.list [])],
               mount_point := "/mnt/root",
               mount_info := [("fs_type", PyVal.str "ext4"), ("mount_opts", PyVal.list [])],
               file := some "/img.raw", size := some 10 }] := by
    unfold build_blkdevs build_blkdevs_go
    dsimp only
    rw [convert_to_bytes_ten]
    decide
  have h := build_blkdevs_append_only_after_all_stages _ _ _ hrun
  exact ⟨_, hrun, h.1, h.2⟩
